import Mathlib

/-!
Verification of the LivePortrait inference server (pipeline.py, server.py).

The embedding models the degraded (heuristic) synthesis path of
`LivePortraitPipeline.inference`, `LivePortraitPipeline.set_reference`,
the `/reference` upload route and the `/ws` message handler.

Conventions of the shallow embedding:
* JSON numbers and Python floats are modelled as exact rationals.
* uint8 pixel values are `Fin 256`; images are height/width plus a pixel
  function.
* External library routines of cv2 / PIL that the claims never inspect
  (`cv2.resize`, PIL `Image.resize`, `cv2.GaussianBlur`) are parameters of
  the model, collected in the `Ext` structure.
* `cv2.getRotationMatrix2D`, `cv2.invertAffineTransform` and
  `cv2.warpAffine` are modelled from their documented semantics (the
  2D similarity matrix, affine inversion, inverse-mapped bilinear sampling
  with the selected border mode), since the claims constrain them directly.
* A Python exception raised by repository code is an `Except.error`.
-/

namespace LivePortrait

/-! ## Images and pixel arithmetic -/

/-- An 8-bit RGB image: height, width, and a pixel function
(row, column, channel).  Only indices with `r < h`, `c < w` are meaningful. -/
structure Image where
  h : ℕ
  w : ℕ
  pix : ℕ → ℕ → Fin 3 → Fin 256

/-- Pixel-for-pixel equality of two images: same dimensions and equal pixel
values at every in-range index. -/
def Image.pixEq (x y : Image) : Prop :=
  x.h = y.h ∧ x.w = y.w ∧
    ∀ r, r < x.h → ∀ c, c < x.w → ∀ ch, x.pix r c ch = y.pix r c ch

/-- Saturating cast of an integer into uint8 range. -/
def satCast (z : ℤ) : Fin 256 :=
  ⟨(min 255 (max 0 z)).toNat, by omega⟩

/-- Model of `np.clip(x, 0, 255).astype(np.uint8)` on an exact rational:
clip to [0, 255], then truncate to an integer (numpy's float→uint8 cast
truncates; after clipping the value is nonnegative, so truncation is floor). -/
def clipU8 (x : ℚ) : Fin 256 :=
  satCast ⌊min (max x 0) 255⌋

/-- Model of OpenCV's `saturate_cast<uchar>` applied to the real-valued
result of bilinear interpolation: round to nearest, saturate to [0, 255].
(OpenCV rounds halves to even; the claims only meet exact integers, where
every rounding convention agrees, so round-half-up is used.) -/
noncomputable def u8satR (x : ℝ) : Fin 256 :=
  satCast (round x)

/-! ## JSON values (the decoded form of `json.loads`) -/

/-- Decoded JSON value. -/
inductive Json where
  | null : Json
  | bool (b : Bool) : Json
  | num (q : ℚ) : Json
  | str (s : String) : Json
  | arr (xs : List Json) : Json
  | obj (fields : List (String × Json)) : Json

/-- Model of Python `dict.get` on the decoded object field list. -/
def jLookup : List (String × Json) → String → Option Json
  | [], _ => none
  | (k, v) :: rest, key => if k = key then some v else jLookup rest key

/-- Errors raised by pipeline code: the `ValueError("Reference image not
set")` of `inference`, and any other Python exception carrying a message. -/
inductive PErr where
  | refNotSet : PErr
  | exc (msg : String) : PErr

/-- Model of Python `str(e)` for the exceptions the pipeline raises. -/
def errMessage : PErr → String
  | .refNotSet => "Reference image not set"
  | .exc m => m

/-- Numeric coercion at a Python arithmetic/comparison use site: numbers are
used directly, booleans act as 0/1, every other value raises `TypeError`. -/
def jNum : Json → Except PErr ℚ
  | .num q => .ok q
  | .bool b => .ok (if b then 1 else 0)
  | _ => .error (.exc "TypeError")

/-- Model of Python subscription `x[i]` as used on `head_rotation`:
lists index (raising `IndexError` when out of range), every other value
raises at the subscription or at the following arithmetic. -/
def jIndex : Json → ℕ → Except PErr Json
  | .arr xs, i =>
      match xs[i]? with
      | some v => .ok v
      | none => .error (.exc "IndexError")
  | _, _ => .error (.exc "TypeError")

/-! ## External library routines left abstract -/

/-- External image routines whose values no claim inspects.  `cvResize`
models `cv2.resize(img, (256, 256))`; `pilResize` models PIL's
`image.resize((256, 256), LANCZOS)`; `gaussianBlur k` models
`cv2.GaussianBlur(img, (k, k), 0)`. -/
structure Ext where
  cvResize : Image → Image
  pilResize : Image → Image
  gaussianBlur : ℤ → Image → Image

/-! ## The affine warp (cv2.getRotationMatrix2D / cv2.warpAffine) -/

/-- A 2x3 affine matrix `[[a, b, c], [d, e, f]]` mapping source (x, y) to
destination `(a x + b y + c, d x + e y + f)`. -/
@[ext] structure AffMat where
  a : ℝ
  b : ℝ
  c : ℝ
  d : ℝ
  e : ℝ
  f : ℝ

/-- Documented semantics of `cv2.getRotationMatrix2D(center, angle, scale)`
(angle in degrees, counter-clockwise): with `alpha = scale*cos`, `beta =
scale*sin`, the matrix is `[[alpha, beta, (1-alpha)*cx - beta*cy],
[-beta, alpha, beta*cx + (1-alpha)*cy]]`. -/
noncomputable def getRotationMatrix2D (cx cy angle scale : ℝ) : AffMat :=
  let θ := angle * (Real.pi / 180)
  let α := scale * Real.cos θ
  let β := scale * Real.sin θ
  ⟨α, β, (1 - α) * cx - β * cy, -β, α, β * cx + (1 - α) * cy⟩

open Classical in
/-- Documented semantics of `cv2.invertAffineTransform` (used internally by
`cv2.warpAffine`, which applies the inverse map): standard 2x2 inversion
with the translation solved out; a singular matrix inverts to zero. -/
noncomputable def invertAffine (M : AffMat) : AffMat :=
  let det := M.a * M.e - M.b * M.d
  if det = 0 then ⟨0, 0, 0, 0, 0, 0⟩
  else ⟨M.e / det, -M.b / det, (M.b * M.f - M.e * M.c) / det,
        -M.d / det, M.a / det, (M.d * M.c - M.a * M.f) / det⟩

/-- Border handling of the warp: `replicate` is `cv2.BORDER_REPLICATE`
(edge pixels extended), `constant v` is `cv2.BORDER_CONSTANT` with fill
value `v`. -/
inductive BorderMode where
  | replicate : BorderMode
  | constant (v : Fin 256) : BorderMode

/-- Fetch a source pixel at integer coordinates `(y, x)`, applying the
border mode outside the image. -/
def fetchPix (bm : BorderMode) (img : Image) (y x : ℤ) (ch : Fin 3) : Fin 256 :=
  if 0 ≤ y ∧ y < (img.h : ℤ) ∧ 0 ≤ x ∧ x < (img.w : ℤ) then
    img.pix y.toNat x.toNat ch
  else
    match bm with
    | .replicate =>
        img.pix (min ((img.h : ℤ) - 1) (max 0 y)).toNat
          (min ((img.w : ℤ) - 1) (max 0 x)).toNat ch
    | .constant v => v

/-- Bilinear interpolation of the source image at real coordinates
`(X, Y)` (x = column, y = row), as `cv2.warpAffine` with `INTER_LINEAR`
performs (exact at integer coordinates). -/
noncomputable def sampleBilinear (bm : BorderMode) (img : Image)
    (X Y : ℝ) (ch : Fin 3) : ℝ :=
  let x0 := ⌊X⌋
  let y0 := ⌊Y⌋
  let a := X - (x0 : ℝ)
  let b := Y - (y0 : ℝ)
  let v00 := ((fetchPix bm img y0 x0 ch : ℕ) : ℝ)
  let v10 := ((fetchPix bm img y0 (x0 + 1) ch : ℕ) : ℝ)
  let v01 := ((fetchPix bm img (y0 + 1) x0 ch : ℕ) : ℝ)
  let v11 := ((fetchPix bm img (y0 + 1) (x0 + 1) ch : ℕ) : ℝ)
  (1 - a) * (1 - b) * v00 + a * (1 - b) * v10 +
    (1 - a) * b * v01 + a * b * v11

/-- Model of `cv2.warpAffine(img, M, (w, h), borderMode)`: each output
pixel samples the source at the inverse-mapped coordinates. -/
noncomputable def warpAffine (bm : BorderMode) (M : AffMat) (img : Image) :
    Image :=
  let N := invertAffine M
  ⟨img.h, img.w, fun r c ch =>
    u8satR (sampleBilinear bm img
      (N.a * (c : ℝ) + N.b * (r : ℝ) + N.c)
      (N.d * (c : ℝ) + N.e * (r : ℝ) + N.f) ch)⟩

/-- The affine matrix `inference` builds for the head pose: lines 223-234
of pipeline.py.  `yaw = head_rotation[1] * 30`, `pitch = head_rotation[0]
* 15`, `M = cv2.getRotationMatrix2D((w // 2, h // 2), -yaw, 1.0)`, then
`M[1][2] += pitch * 2`. -/
noncomputable def headMatrix (h w : ℕ) (pitchQ yawQ : ℚ) : AffMat :=
  let yaw : ℚ := yawQ * 30
  let pitch : ℚ := pitchQ * 15
  let M := getRotationMatrix2D ((w / 2 : ℕ) : ℝ) ((h / 2 : ℕ) : ℝ)
    ((-yaw : ℚ) : ℝ) 1
  { M with f := M.f + ((pitch : ℚ) : ℝ) * 2 }

/-! ## Expression effects (lines 240-252 of pipeline.py) -/

/-- One pixel of `np.clip(result * brightness, 0, 255).astype(np.uint8)`. -/
def brightApply (b : ℚ) (img : Image) : Image :=
  ⟨img.h, img.w, fun r c ch => clipU8 (((img.pix r c ch : ℕ) : ℚ) * b)⟩

/-- The mouth-open brightness step: `if mouth_open > 0.1: brightness = 1.0
+ mouth_open * 0.05; result = np.clip(result * brightness, 0,
255).astype(np.uint8)`. -/
def brightStage (mouthOpen : ℚ) (img : Image) : Image :=
  if mouthOpen > 1 / 10 then brightApply (1 + mouthOpen * (5 / 100)) img
  else img

/-- Python `int()` on a float: truncation toward zero. -/
def pyInt (q : ℚ) : ℤ :=
  if 0 ≤ q then ⌊q⌋ else ⌈q⌉

/-- The blur kernel size computed by `inference`: `kernel_size = int(3 +
blink * 2); if kernel_size % 2 == 0: kernel_size += 1`. -/
def kernelSize (blink : ℚ) : ℤ :=
  let k := pyInt (3 + blink * 2)
  if k % 2 = 0 then k + 1 else k

/-- Kernel size as the specification words it: `3 + round(blink × 2)`,
incremented by one if even.  Stated for comparison with `kernelSize`. -/
def specKernelSize (blink : ℚ) : ℤ :=
  let k := 3 + round (blink * 2)
  if k % 2 = 0 then k + 1 else k

/-- The eye-blink blur step: `blink = (eye_blink_left + eye_blink_right) /
2; if blink > 0.5: result = cv2.GaussianBlur(result, (kernel_size,
kernel_size), 0)`. -/
def blurStage (ext : Ext) (l r : ℚ) (img : Image) : Image :=
  let blink := (l + r) / 2
  if blink > 1 / 2 then ext.gaussianBlur (kernelSize blink) img else img

/-! ## Pipeline state (`LivePortraitPipeline.__init__`) -/

/-- A model feature tensor (channel, row, column), as produced by
`_preprocess_image` and the ONNX sessions. -/
def Tensor := Fin 3 → ℕ → ℕ → ℚ

/-- The mutable attributes of `LivePortraitPipeline`.  The ONNX sessions
are external: the two extractors are modelled as optional functions that
may raise (`Except.error`), matching `session.run`; the unused session
slots are presence flags. -/
structure PState where
  is_ready : Bool
  reference_image : Option Image
  appearance_extractor : Option (Tensor → Except Unit Tensor)
  motion_extractor : Option (Tensor → Except Unit (List Tensor))
  warping_module : Option Unit
  stitching_module : Option Unit
  landmark_detector : Option Unit
  source_kp : Option Tensor
  source_rotation : Option Tensor
  generator_input : Option Tensor
  device : String

/-- `_preprocess_image`: resize to 256x256 when needed (via the external
`cv2.resize`), transpose HWC to CHW, scale to [0, 1].  The batch dimension
is a container detail and is omitted. -/
def preprocess (ext : Ext) (img : Image) : Tensor :=
  let im := if img.h = 256 ∧ img.w = 256 then img else ext.cvResize img
  fun ch y x => ((im.pix y x ch : ℕ) : ℚ) / 255

/-- The appearance-extraction block of `set_reference` (lines 131-143):
when the session is present, run it on the preprocessed image; on success
store the output in `generator_input`, on exception log and keep the state
as it was. -/
def applyAppearance (s : PState) (t : Tensor) : PState :=
  match s.appearance_extractor with
  | none => s
  | some f =>
      match f t with
      | .ok out => { s with generator_input := some out }
      | .error _ => s

/-- The motion-extraction block of `set_reference` (lines 146-162):
on success store `outputs[0] if len(outputs) > 0 else None` in `source_kp`
and `outputs[1] if len(outputs) > 1 else None` in `source_rotation`;
on exception log and keep the state as it was. -/
def applyMotionX (s : PState) (t : Tensor) : PState :=
  match s.motion_extractor with
  | none => s
  | some f =>
      match f t with
      | .ok outs =>
          { s with source_kp := outs.head?, source_rotation := outs[1]? }
      | .error _ => s

/-- `set_reference`: store a copy of the image, then run the two
best-effort extraction blocks. -/
def set_reference (ext : Ext) (s : PState) (img : Image) : PState :=
  let s1 := { s with reference_image := some img }
  let s2 := applyAppearance s1 (preprocess ext img)
  applyMotionX s2 (preprocess ext img)

/-! ## The degraded synthesis path (`inference`, lines 200-254) -/

/-- The five fields `inference` reads from `motion_params` via
`dict.get` with defaults, kept as raw JSON values (Python coerces them
only at their use sites). -/
structure RawMotion where
  headRotation : Json
  mouthOpen : Json
  eyeBlinkLeft : Json
  eyeBlinkRight : Json
  smile : Json

/-- Lines 210-214 of `inference`: `motion_params.get(key, default)` for
each of the five motion fields. -/
def readParams (fs : List (String × Json)) : RawMotion :=
  { headRotation := (jLookup fs "headRotation").getD
      (.arr [.num 0, .num 0, .num 0])
    mouthOpen := (jLookup fs "mouthOpen").getD (.num 0)
    eyeBlinkLeft := (jLookup fs "eyeBlinkLeft").getD (.num 0)
    eyeBlinkRight := (jLookup fs "eyeBlinkRight").getD (.num 0)
    smile := (jLookup fs "smile").getD (.num 0) }

/-- A motion record whose fields are plain numbers
`[pitch, yaw, roll], mouthOpen, eyeBlinkLeft, eyeBlinkRight, smile`. -/
def numMotion (p y ro m l r sm : ℚ) : RawMotion :=
  ⟨.arr [.num p, .num y, .num ro], .num m, .num l, .num r, .num sm⟩

/-- The body of `inference` after the reference check: head-rotation warp
(lines 222-238), brightness (241-244), blur (246-252), applied in order to
a fresh copy of the reference.  Numeric coercions of the JSON field values
raise exactly where Python would use them. -/
noncomputable def degradedRender (ext : Ext) (ref : Image) (m : RawMotion) :
    Except PErr Image := do
  let j1 ← jIndex m.headRotation 1
  let yq ← jNum j1
  let j0 ← jIndex m.headRotation 0
  let pq ← jNum j0
  let warped := warpAffine .replicate (headMatrix ref.h ref.w pq yq) ref
  let mq ← jNum m.mouthOpen
  let bimg := brightStage mq warped
  let lq ← jNum m.eyeBlinkLeft
  let rq ← jNum m.eyeBlinkRight
  pure (blurStage ext lq rq bimg)

/-- `inference` as a function of the reference slot it reads: `raise
ValueError("Reference image not set")` when no reference is set, an
`AttributeError` when `motion_params` is not a dict (its `.get` calls
fail), and the degraded render otherwise. -/
noncomputable def inferRef (ext : Ext) (r : Option Image) (params : Json) :
    Except PErr Image :=
  match r with
  | none => .error .refNotSet
  | some ref =>
      match params with
      | .obj fs => degradedRender ext ref (readParams fs)
      | _ => .error (.exc "AttributeError")

/-- `LivePortraitPipeline.inference(motion_params)`.  The method reads
`self.reference_image` and nothing else of `self`. -/
noncomputable def pipelineInference (ext : Ext) (s : PState) (params : Json) :
    Except PErr Image :=
  inferRef ext s.reference_image params

/-- `inference` with the instance state threaded explicitly: the method
body contains no assignment to `self`, so the state passes through
unchanged. -/
noncomputable def inferenceS (ext : Ext) (s : PState) (params : Json) :
    PState × Except PErr Image :=
  (s, pipelineInference ext s params)

/-- A sequence of `inference` calls on one pipeline instance, threading
the instance state from call to call. -/
noncomputable def runCalls (ext : Ext) : PState → List Json →
    PState × List (Except PErr Image)
  | s, [] => (s, [])
  | s, j :: js =>
      let r := inferenceS ext s j
      let rest := runCalls ext r.1 js
      (rest.1, r.2 :: rest.2)

/-! ## The streaming gateway (server.py) -/

/-- The global server state read by the handlers: the `pipeline` instance
and the module-level `reference_image`. -/
structure GState where
  pipeline : Option PState
  reference_image : Option Image

/-- A JSON reply sent on the websocket.  The frame reply carries the raw
synthesized image (the JPEG/base64 container encoding is external). -/
inductive Reply where
  | frame (img : Image) : Reply
  | error (msg : String) : Reply
  | status (msg : String) : Reply
  | pong : Reply

/-- Outcome of handling one received websocket payload: a reply is sent
and the receive loop continues, the message is silently ignored and the
loop continues, or an exception escapes the per-message handling and the
handler leaves its loop (the `finally` cleanup runs, no reply is sent). -/
inductive Outcome where
  | reply (r : Reply) : Outcome
  | silent : Outcome
  | terminate : Outcome

/-- Python `message.get("type") == lit`: `None` and non-string values
simply compare unequal. -/
def typeIs (v : Option Json) (lit : String) : Bool :=
  match v with
  | some (.str t) => t = lit
  | _ => false

/-- The `motion` branch of the receive loop (lines 113-144 of server.py):
with a present, ready pipeline and a loaded global reference, run
`inference` and reply with the frame on success or an error message
carrying `str(e)` on failure; otherwise reply with the fixed status
message. -/
noncomputable def motionOutcome (ext : Ext) (g : GState) (params : Json) :
    Outcome :=
  match g.pipeline with
  | some p =>
      if p.is_ready then
        match g.reference_image with
        | some _ =>
            match pipelineInference ext p params with
            | .ok img => .reply (.frame img)
            | .error e => .reply (.error (errMessage e))
        | none =>
            .reply (.status "Pipeline not ready or reference not loaded")
      else .reply (.status "Pipeline not ready or reference not loaded")
  | none => .reply (.status "Pipeline not ready or reference not loaded")

/-- One iteration of the `/ws` receive loop (lines 110-147 of server.py)
on a received text payload.  The payload is given as the result of
`json.loads`: `Except.error` when the text is not valid JSON (the raised
`JSONDecodeError` propagates to the connection-level handler and ends the
loop).  A decoded value that is not an object makes `message.get` raise
`AttributeError`, which likewise ends the loop. -/
noncomputable def processMessage (ext : Ext) (g : GState)
    (parsed : Except Unit Json) : Outcome :=
  match parsed with
  | .error _ => .terminate
  | .ok j =>
      match j with
      | .obj fs =>
          if typeIs (jLookup fs "type") "motion" then
            motionOutcome ext g ((jLookup fs "params").getD (.obj []))
          else if typeIs (jLookup fs "type") "ping" then .reply .pong
          else .silent
      | _ => .terminate

/-- The `/reference` upload route (lines 74-97 of server.py) on a decoded
RGB image: resize to 256x256 with LANCZOS, publish it as the global
reference, and when the pipeline is present and ready forward it to
`set_reference`. -/
def uploadReference (ext : Ext) (g : GState) (img : Image) : GState :=
  let r := ext.pilResize img
  let g1 := { g with reference_image := some r }
  match g1.pipeline with
  | some p =>
      if p.is_ready then { g1 with pipeline := some (set_reference ext p r) }
      else g1
  | none => g1

/-! ## Interleaving model for concurrent upload and inference

`uploadReference` performs its writes to the shared state one assignment
at a time; an `inference` call reads the gate fields (`pipeline`,
`pipeline.is_ready`, global `reference_image`) at one instant and
`self.reference_image` at a possibly later instant.  The schedule is
abstracted by how many writer steps have completed before each read. -/

/-- Writer step 1: `reference_image = np.array(image)` publishes the
resized image as the global reference. -/
def stepServerRef (r : Image) (g : GState) : GState :=
  { g with reference_image := some r }

/-- Writer step 2: `self.reference_image = image.copy()` inside
`set_reference` (reached only when the pipeline is present and ready on
the upload path). -/
def stepPipeRef (r : Image) (g : GState) : GState :=
  { g with pipeline := g.pipeline.map (fun p =>
    if p.is_ready then { p with reference_image := some r } else p) }

/-- Writer step 3: the appearance-extraction block of `set_reference`. -/
def stepAppearance (ext : Ext) (r : Image) (g : GState) : GState :=
  { g with pipeline := g.pipeline.map (fun p =>
    if p.is_ready then applyAppearance p (preprocess ext r) else p) }

/-- Writer step 4: the motion-extraction block of `set_reference`. -/
def stepMotion (ext : Ext) (r : Image) (g : GState) : GState :=
  { g with pipeline := g.pipeline.map (fun p =>
    if p.is_ready then applyMotionX p (preprocess ext r) else p) }

/-- The successive atomic assignments `uploadReference` makes to the
shared state. -/
def uploadSteps (ext : Ext) (img : Image) : List (GState → GState) :=
  let r := ext.pilResize img
  [stepServerRef r, stepPipeRef r, stepAppearance ext r, stepMotion ext r]

/-- The shared state after the first `t` writer steps. -/
def wStateAt (ext : Ext) (img : Image) (g0 : GState) (t : ℕ) : GState :=
  ((uploadSteps ext img).take t).foldl (fun s f => f s) g0

/-- The reference slot of the pipeline inside a server state. -/
def pipeRef (g : GState) : Option Image :=
  match g.pipeline with
  | some p => p.reference_image
  | none => none

/-- The reply the handler builds from an `inference` result: a frame on
success, an error message carrying `str(e)` on failure. -/
noncomputable def replyOf : Except PErr Image → Outcome
  | .ok f => .reply (.frame f)
  | .error e => .reply (.error (errMessage e))

/-- A concurrent motion request interleaved with an upload: the gate
fields are read after `t1` writer steps, the in-`inference` read of
`self.reference_image` happens after `t2` writer steps. -/
noncomputable def readerOutcome (ext : Ext) (g0 : GState) (img : Image)
    (params : Json) (t1 t2 : ℕ) : Outcome :=
  let gg := wStateAt ext img g0 t1
  match gg.pipeline with
  | none => .reply (.status "Pipeline not ready or reference not loaded")
  | some p =>
      if p.is_ready then
        match gg.reference_image with
        | none =>
            .reply (.status "Pipeline not ready or reference not loaded")
        | some _ =>
            replyOf (inferRef ext (pipeRef (wStateAt ext img g0 t2)) params)
      else .reply (.status "Pipeline not ready or reference not loaded")

/-! ## Helper lemmas -/

/-- At zero yaw and zero pitch the head matrix is the identity transform. -/
lemma headMatrix_zero (h w : ℕ) : headMatrix h w 0 0 = ⟨1, 0, 0, 0, 1, 0⟩ := by
  unfold headMatrix getRotationMatrix2D
  ext <;> push_cast <;>
    simp [Real.cos_zero, Real.sin_zero]

/-- The identity affine matrix inverts to itself. -/
lemma invertAffine_id : invertAffine ⟨1, 0, 0, 0, 1, 0⟩ = ⟨1, 0, 0, 0, 1, 0⟩ := by
  unfold invertAffine
  rw [if_neg (by norm_num)]
  ext <;> norm_num

/-- Rounding a uint8 value back through the saturating cast is the
identity. -/
lemma u8satR_fin (v : Fin 256) : u8satR (((v : ℕ) : ℝ)) = v := by
  unfold u8satR satCast
  have h1 : round (((v : ℕ) : ℝ)) = ((v : ℕ) : ℤ) := round_natCast _
  rw [h1]
  have hv : (v : ℕ) < 256 := v.isLt
  apply Fin.ext
  simp only [Fin.val]
  omega

/-- Bilinear sampling at exact integer in-range coordinates returns the
pixel value, for any border mode. -/
lemma sampleBilinear_int (bm : BorderMode) (img : Image) (r c : ℕ)
    (hr : r < img.h) (hc : c < img.w) (ch : Fin 3) :
    sampleBilinear bm img ((c : ℝ)) ((r : ℝ)) ch =
      ((img.pix r c ch : ℕ) : ℝ) := by
  unfold sampleBilinear
  have hx : ⌊((c : ℕ) : ℝ)⌋ = (c : ℤ) := Int.floor_natCast c
  have hy : ⌊((r : ℕ) : ℝ)⌋ = (r : ℤ) := Int.floor_natCast r
  rw [hx, hy]
  have hfetch : fetchPix bm img (r : ℤ) (c : ℤ) ch = img.pix r c ch := by
    unfold fetchPix
    rw [if_pos]
    · simp
    · exact ⟨Int.ofNat_nonneg r, by exact_mod_cast hr,
        Int.ofNat_nonneg c, by exact_mod_cast hc⟩
  simp [hfetch]

/-- Warping with the identity matrix is pixel-for-pixel the identity. -/
lemma warpAffine_id (bm : BorderMode) (img : Image) :
    Image.pixEq (warpAffine bm ⟨1, 0, 0, 0, 1, 0⟩ img) img := by
  refine ⟨rfl, rfl, ?_⟩
  intro r hr c hc ch
  show u8satR _ = _
  rw [show (invertAffine ⟨1, 0, 0, 0, 1, 0⟩) = ⟨1, 0, 0, 0, 1, 0⟩ from
    invertAffine_id]
  simp only
  rw [show (1 : ℝ) * (c : ℝ) + 0 * (r : ℝ) + 0 = (c : ℝ) by ring,
    show (0 : ℝ) * (c : ℝ) + 1 * (r : ℝ) + 0 = (r : ℝ) by ring]
  rw [sampleBilinear_int bm img r c hr hc ch]
  exact u8satR_fin _

/-- The appearance block touches only the feature slot. -/
lemma applyAppearance_ref (s : PState) (t : Tensor) :
    (applyAppearance s t).reference_image = s.reference_image := by
  unfold applyAppearance
  split
  · rfl
  · split <;> rfl

/-- The motion block touches only the feature slots. -/
lemma applyMotionX_ref (s : PState) (t : Tensor) :
    (applyMotionX s t).reference_image = s.reference_image := by
  unfold applyMotionX
  split
  · rfl
  · split <;> rfl

/-- `set_reference` always retains the raw image it was given. -/
lemma set_reference_ref (ext : Ext) (s : PState) (img : Image) :
    (set_reference ext s img).reference_image = some img := by
  unfold set_reference
  rw [applyMotionX_ref, applyAppearance_ref]

/-- Zero mouth-open skips the brightness step. -/
lemma brightStage_zero (img : Image) : brightStage 0 img = img := by
  unfold brightStage
  norm_num

/-- Zero blink skips the blur step. -/
lemma blurStage_zero (ext : Ext) (img : Image) : blurStage ext 0 0 img = img := by
  unfold blurStage
  norm_num

/-- The all-zero motion message: `headRotation = [0, 0, 0]` and all four
scalars zero. -/
def zeroMotionJson : Json :=
  .obj [("headRotation", .arr [.num 0, .num 0, .num 0]),
        ("mouthOpen", .num 0), ("eyeBlinkLeft", .num 0),
        ("eyeBlinkRight", .num 0), ("smile", .num 0)]

/-- On all-numeric motion parameters no coercion raises and the render is
the documented three-stage composition. -/
lemma degradedRender_num (ext : Ext) (ref : Image) (p y ro m l r sm : ℚ) :
    degradedRender ext ref (numMotion p y ro m l r sm) =
      .ok (blurStage ext l r (brightStage m
        (warpAffine .replicate (headMatrix ref.h ref.w p y) ref))) := rfl

/-! ## Claim theorems -/

/-- C1.  After a reference upload has stored the canonically-resized
reference, `inference` with all-zero motion parameters (headRotation =
[0,0,0], mouthOpen = eyeBlinkLeft = eyeBlinkRight = smile = 0) succeeds
and returns a frame pixel-for-pixel equal to that stored resized
reference: the rotation warp is the identity, the brightness step is
skipped (0 is not greater than 0.1) and the blur step is skipped (0 is not
greater than 0.5). -/
theorem inference_zero_motion_identity (ext : Ext) (g : GState) (p : PState)
    (img : Image) (hp : g.pipeline = some p) (hr : p.is_ready = true) :
    (uploadReference ext g img).pipeline =
      some (set_reference ext p (ext.pilResize img)) ∧
    (uploadReference ext g img).reference_image = some (ext.pilResize img) ∧
    (set_reference ext p (ext.pilResize img)).reference_image =
      some (ext.pilResize img) ∧
    ∃ out, pipelineInference ext (set_reference ext p (ext.pilResize img))
        zeroMotionJson = .ok out ∧ Image.pixEq out (ext.pilResize img) := by
  refine ⟨?_, ?_, set_reference_ref ext p _, ?_⟩
  · unfold uploadReference
    simp [hp, hr]
  · unfold uploadReference
    simp [hp, hr]
  · refine ⟨warpAffine .replicate (headMatrix (ext.pilResize img).h
      (ext.pilResize img).w 0 0) (ext.pilResize img), ?_, ?_⟩
    · have h1 : pipelineInference ext (set_reference ext p (ext.pilResize img))
          zeroMotionJson =
          degradedRender ext (ext.pilResize img) (numMotion 0 0 0 0 0 0 0) := by
        unfold pipelineInference
        rw [set_reference_ref]
        rfl
      rw [h1, degradedRender_num, brightStage_zero, blurStage_zero]
    · rw [headMatrix_zero]
      exact warpAffine_id _ _

/-- A trivial instantiation of the external routines: both resizes and the
blur leave the image unchanged.  Used only to instantiate universally
quantified hypotheses in witnesses. -/
def extId : Ext :=
  ⟨fun i => i, fun i => i, fun _ i => i⟩

/-- A concrete 2x2 test image. -/
def imgA : Image :=
  ⟨2, 2, fun r c ch => ⟨(37 * r + 11 * c + (ch : ℕ)) % 256, Nat.mod_lt _ (by omega)⟩⟩

/-- A pipeline state fresh out of `__init__` except that loading marked it
ready (dummy mode: no sessions present). -/
def pReady : PState :=
  ⟨true, none, none, none, none, none, none, none, none, none, "cpu"⟩

/-- Witness for C1 at a concrete server state, pipeline and image. -/
theorem inference_zero_motion_identity_witness :
    (GState.mk (some pReady) none).pipeline = some pReady ∧
    pReady.is_ready = true ∧
    ((uploadReference extId ⟨some pReady, none⟩ imgA).pipeline =
      some (set_reference extId pReady (extId.pilResize imgA)) ∧
    (uploadReference extId ⟨some pReady, none⟩ imgA).reference_image =
      some (extId.pilResize imgA) ∧
    (set_reference extId pReady (extId.pilResize imgA)).reference_image =
      some (extId.pilResize imgA) ∧
    ∃ out, pipelineInference extId (set_reference extId pReady
        (extId.pilResize imgA)) zeroMotionJson = .ok out ∧
      Image.pixEq out (extId.pilResize imgA)) :=
  ⟨rfl, rfl, inference_zero_motion_identity extId ⟨some pReady, none⟩ pReady
    imgA rfl rfl⟩

/-- C5.  The degraded path warps with an affine matrix built by the
standard rotation-matrix constructor from angle −(headRotation.yaw × 30)
degrees about the image center with unit scale, to whose translation term
a vertical shift of headRotation.pitch × 15 × 2 is added, applied with
edge-replicating border handling; for yaw = 1 the angle is exactly −30
degrees. -/
theorem head_warp_parameters :
    (∀ (ext : Ext) (ref : Image) (p y ro m l r sm : ℚ),
      degradedRender ext ref (numMotion p y ro m l r sm) =
        .ok (blurStage ext l r (brightStage m
          (warpAffine .replicate (headMatrix ref.h ref.w p y) ref)))) ∧
    (∀ (h w : ℕ) (p y : ℚ),
      headMatrix h w p y =
        { getRotationMatrix2D ((w / 2 : ℕ) : ℝ) ((h / 2 : ℕ) : ℝ)
            ((-(y * 30) : ℚ) : ℝ) 1 with
          f := (getRotationMatrix2D ((w / 2 : ℕ) : ℝ) ((h / 2 : ℕ) : ℝ)
            ((-(y * 30) : ℚ) : ℝ) 1).f + ((p * 15 * 2 : ℚ) : ℝ) }) ∧
    (-(((1 : ℚ)) * 30) = (-30 : ℚ)) := by
  refine ⟨fun ext ref p y ro m l r sm => degradedRender_num ext ref p y ro m l r sm,
    ?_, by norm_num⟩
  intro h w p y
  unfold headMatrix
  ext
  · rfl
  · rfl
  · rfl
  · rfl
  · rfl
  · show (getRotationMatrix2D _ _ _ 1).f + ((p * 15 : ℚ) : ℝ) * 2 = _
    push_cast
    ring

/-- C6.  The brightness step multiplies every pixel by
(1.0 + mouthOpen × 0.05), clipped to [0, 255] and re-quantized to 8 bits,
exactly when mouthOpen > 0.1, and is the identity when mouthOpen ≤ 0.1;
for mouthOpen = 0.2 the factor is exactly 1.01. -/
theorem mouth_brightness_scaling :
    (∀ (ext : Ext) (ref : Image) (p y ro m l r sm : ℚ),
      degradedRender ext ref (numMotion p y ro m l r sm) =
        .ok (blurStage ext l r (brightStage m
          (warpAffine .replicate (headMatrix ref.h ref.w p y) ref)))) ∧
    (∀ (m : ℚ) (img : Image), m > 1 / 10 → ∀ r c ch,
      (brightStage m img).pix r c ch =
        clipU8 (((img.pix r c ch : ℕ) : ℚ) * (1 + m * (5 / 100)))) ∧
    (∀ (m : ℚ) (img : Image), m ≤ 1 / 10 → brightStage m img = img) ∧
    (∀ (img : Image) (r c : ℕ) (ch : Fin 3),
      (brightStage (2 / 10) img).pix r c ch =
        clipU8 (((img.pix r c ch : ℕ) : ℚ) * (101 / 100))) := by
  refine ⟨fun ext ref p y ro m l r sm => degradedRender_num ext ref p y ro m l r sm,
    ?_, ?_, ?_⟩
  · intro m img hm r c ch
    unfold brightStage
    rw [if_pos hm]
    rfl
  · intro m img hm
    unfold brightStage
    rw [if_neg (not_lt.mpr hm)]
  · intro img r c ch
    unfold brightStage
    rw [if_pos (by norm_num)]
    show clipU8 (((img.pix r c ch : ℕ) : ℚ) * (1 + (2 / 10) * (5 / 100))) = _
    norm_num

/-- Witness for C6 at concrete mouth-open values and a concrete image. -/
theorem mouth_brightness_scaling_witness :
    (1 : ℚ) / 5 > 1 / 10 ∧
    (brightStage (1 / 5) imgA).pix 0 0 0 =
      clipU8 (((imgA.pix 0 0 0 : ℕ) : ℚ) * (1 + (1 / 5) * (5 / 100))) ∧
    (1 : ℚ) / 10 ≤ 1 / 10 ∧
    brightStage (1 / 10) imgA = imgA ∧
    (brightStage (2 / 10) imgA).pix 1 1 2 =
      clipU8 (((imgA.pix 1 1 2 : ℕ) : ℚ) * (101 / 100)) :=
  ⟨by norm_num,
   mouth_brightness_scaling.2.1 (1 / 5) imgA (by norm_num) 0 0 0,
   by norm_num,
   mouth_brightness_scaling.2.2.1 (1 / 10) imgA (by norm_num),
   mouth_brightness_scaling.2.2.2 imgA 1 1 2⟩

/-- C2 (amended).  When blink = (eyeBlinkLeft + eyeBlinkRight)/2 exceeds
0.5, the blur runs with kernel size int(3 + blink × 2) — truncation, not
rounding — incremented by one if even; for eyeBlinkLeft = eyeBlinkRight =
0.8 the kernel size is exactly 5, and for blink ≤ 0.5 no blur is
applied. -/
theorem blink_blur_kernel :
    (∀ (ext : Ext) (l r : ℚ) (img : Image),
      (l + r) / 2 > 1 / 2 →
        blurStage ext l r img =
          ext.gaussianBlur (kernelSize ((l + r) / 2)) img) ∧
    (∀ b : ℚ, b > 1 / 2 →
      kernelSize b =
        (let k := 3 + ⌊b * 2⌋; if k % 2 = 0 then k + 1 else k)) ∧
    (kernelSize ((4 / 5 + 4 / 5) / 2) = 5) ∧
    (∀ (ext : Ext) (l r : ℚ) (img : Image),
      (l + r) / 2 ≤ 1 / 2 → blurStage ext l r img = img) := by
  refine ⟨?_, ?_, by norm_num [kernelSize, pyInt], ?_⟩
  · intro ext l r img hb
    unfold blurStage
    rw [if_pos hb]
  · intro b hb
    unfold kernelSize pyInt
    have h0 : (0 : ℚ) ≤ 3 + b * 2 := by nlinarith
    rw [if_pos h0,
      show (3 : ℚ) + b * 2 = b * 2 + ((3 : ℤ) : ℚ) by push_cast; ring,
      Int.floor_add_int]
    have h3 : ⌊b * 2⌋ + 3 = 3 + ⌊b * 2⌋ := by omega
    rw [h3]
  · intro ext l r img hb
    unfold blurStage
    rw [if_neg (not_lt.mpr hb)]

/-- Witness for C2's amended statement at blink = 0.8. -/
theorem blink_blur_kernel_witness :
    ((4 : ℚ) / 5 + 4 / 5) / 2 > 1 / 2 ∧
    blurStage extId (4 / 5) (4 / 5) imgA =
      extId.gaussianBlur (kernelSize ((4 / 5 + 4 / 5) / 2)) imgA ∧
    kernelSize ((4 / 5 + 4 / 5) / 2) =
      (let k := 3 + ⌊((4 : ℚ) / 5 + 4 / 5) / 2 * 2⌋;
        if k % 2 = 0 then k + 1 else k) ∧
    kernelSize ((4 / 5 + 4 / 5) / 2) = 5 :=
  ⟨by norm_num,
   blink_blur_kernel.1 extId (4 / 5) (4 / 5) imgA (by norm_num),
   blink_blur_kernel.2.1 ((4 / 5 + 4 / 5) / 2) (by norm_num),
   blink_blur_kernel.2.2.1⟩

/-- An image whose single pixel records a kernel size, used to observe
which kernel the blur was invoked with. -/
def probeImg (k : ℤ) : Image :=
  ⟨1, 1, fun _ _ _ => satCast k⟩

/-- External routines whose blur replaces the image by a record of the
kernel size it received. -/
def extProbe : Ext :=
  ⟨fun i => i, fun i => i, fun k _ => probeImg k⟩

/-- C2 counterexample to the claim as stated: for eyeBlinkLeft =
eyeBlinkRight = 1.375 (blink = 1.375 > 0.5) the code's blur runs with
kernel size 5 (truncation of 3 + 2.75), while 3 + round(blink × 2) = 6,
incremented to 7 when even, as the claim words it. -/
theorem blink_blur_kernel_counterexample :
    degradedRender extProbe imgA (numMotion 0 0 0 0 (11 / 8) (11 / 8) 0) =
      .ok (probeImg (kernelSize ((11 / 8 + 11 / 8) / 2))) ∧
    kernelSize ((11 / 8 + 11 / 8) / 2) = 5 ∧
    specKernelSize ((11 / 8 + 11 / 8) / 2) = 7 := by
  refine ⟨?_, by norm_num [kernelSize, pyInt],
    by norm_num [specKernelSize, round_eq]⟩
  rw [degradedRender_num, brightStage_zero]
  unfold blurStage
  rw [if_pos (by norm_num)]
  rfl

/-- C3 (amended).  Every received payload that decodes to a JSON object is
handled without terminating the receive loop: a motion message always gets
a structured reply (a frame, error or status message) — in particular any
failure inside `inference`, including a `params` value of unexpected
shape, becomes an error reply carrying the exception's message — a ping
gets a pong, and only unrecognized (or absent) type values are silently
ignored.  A payload that is not valid JSON, or whose decoded top level is
not an object, escapes the per-request handling and ends the handler loop
without a reply. -/
theorem object_message_never_terminates :
    (∀ (ext : Ext) (g : GState) (params : Json),
      ∃ r : Reply, motionOutcome ext g params = .reply r) ∧
    (∀ (ext : Ext) (g : GState) (p : PState) (i : Image) (params : Json)
      (e : PErr),
      g.pipeline = some p → p.is_ready = true →
      g.reference_image = some i →
      pipelineInference ext p params = .error e →
      motionOutcome ext g params = .reply (.error (errMessage e))) ∧
    (∀ (ext : Ext) (g : GState) (fs : List (String × Json)),
      processMessage ext g (.ok (.obj fs)) =
        (if typeIs (jLookup fs "type") "motion" then
          motionOutcome ext g ((jLookup fs "params").getD (.obj []))
        else if typeIs (jLookup fs "type") "ping" then .reply .pong
        else .silent) ∧
      processMessage ext g (.ok (.obj fs)) ≠ .terminate) ∧
    (∀ (ext : Ext) (g : GState) (u : Unit),
      processMessage ext g (.error u) = .terminate) ∧
    (∀ (ext : Ext) (g : GState) (j : Json),
      (∀ fs, j ≠ .obj fs) → processMessage ext g (.ok j) = .terminate) := by
  have hm : ∀ (ext : Ext) (g : GState) (params : Json),
      ∃ r : Reply, motionOutcome ext g params = .reply r := by
    intro ext g params
    unfold motionOutcome
    cases hp : g.pipeline with
    | none => exact ⟨_, rfl⟩
    | some p =>
      cases hready : p.is_ready with
      | false =>
          exact ⟨.status "Pipeline not ready or reference not loaded",
            by simp [hready]⟩
      | true =>
        cases hgr : g.reference_image with
        | none =>
            exact ⟨.status "Pipeline not ready or reference not loaded",
              by simp [hready]⟩
        | some i =>
          cases hir : pipelineInference ext p params with
          | ok f => exact ⟨.frame f, by simp [hready, hir]⟩
          | error e => exact ⟨.error (errMessage e), by simp [hready, hir]⟩
  refine ⟨hm, ?_, ?_, fun ext g u => rfl, ?_⟩
  · intro ext g p i params e hg hready hgr hir
    unfold motionOutcome
    simp [hg, hready, hgr, hir]
  · intro ext g fs
    refine ⟨rfl, ?_⟩
    show (if typeIs (jLookup fs "type") "motion" then
        motionOutcome ext g ((jLookup fs "params").getD (.obj []))
      else if typeIs (jLookup fs "type") "ping" then .reply .pong
      else .silent) ≠ Outcome.terminate
    split
    · rcases hm ext g ((jLookup fs "params").getD (.obj [])) with ⟨r, hr⟩
      rw [hr]
      simp
    · split <;> simp
  · intro ext g j hj
    cases j with
    | null => rfl
    | bool b => rfl
    | num q => rfl
    | str s => rfl
    | arr xs => rfl
    | obj fs => exact absurd rfl (hj fs)

/-- Witness for C3's amended statement: a motion message against a server
whose pipeline lost its reference gets exactly the error reply carrying
the exception's message, and a numeric top-level payload ends the loop. -/
theorem object_message_never_terminates_witness :
    (∃ r : Reply, motionOutcome extId ⟨some pReady, some imgA⟩ (.obj []) =
      .reply r) ∧
    pipelineInference extId pReady (.obj []) = .error .refNotSet ∧
    motionOutcome extId ⟨some pReady, some imgA⟩ (.obj []) =
      .reply (.error (errMessage .refNotSet)) ∧
    processMessage extId ⟨some pReady, some imgA⟩ (.ok (.num 3)) =
      .terminate :=
  ⟨object_message_never_terminates.1 extId ⟨some pReady, some imgA⟩ (.obj []),
   rfl,
   object_message_never_terminates.2.1 extId ⟨some pReady, some imgA⟩ pReady
     imgA (.obj []) .refNotSet rfl rfl rfl rfl,
   object_message_never_terminates.2.2.2.2 extId ⟨some pReady, some imgA⟩
     (.num 3) (fun _ h => Json.noConfusion h)⟩

/-- C3 counterexample to the claim as stated: a payload that is not valid
JSON (or valid JSON that is not an object) makes the handler leave its
receive loop with no reply of any kind, even with a ready pipeline and a
loaded reference. -/
theorem invalid_payload_terminates :
    processMessage extId ⟨some pReady, some imgA⟩ (.error ()) =
      .terminate ∧
    processMessage extId ⟨some pReady, some imgA⟩ (.ok (.arr [])) =
      .terminate :=
  ⟨rfl, rfl⟩

/-- The appearance block never touches the motion-feature slots nor the
extractor slots. -/
lemma applyAppearance_fields (s : PState) (t : Tensor) :
    (applyAppearance s t).source_kp = s.source_kp ∧
    (applyAppearance s t).source_rotation = s.source_rotation ∧
    (applyAppearance s t).motion_extractor = s.motion_extractor := by
  unfold applyAppearance
  split
  · exact ⟨rfl, rfl, rfl⟩
  · split <;> exact ⟨rfl, rfl, rfl⟩

/-- The motion block never touches the appearance-feature slot. -/
lemma applyMotionX_gen (s : PState) (t : Tensor) :
    (applyMotionX s t).generator_input = s.generator_input := by
  unfold applyMotionX
  split
  · rfl
  · split <;> rfl

/-- A failing appearance extraction leaves the state unchanged. -/
lemma applyAppearance_fail (s : PState) (t : Tensor)
    (f : Tensor → Except Unit Tensor) (u : Unit)
    (hf : s.appearance_extractor = some f) (he : f t = .error u) :
    applyAppearance s t = s := by
  unfold applyAppearance
  rw [hf]
  simp only []
  rw [he]

/-- A failing motion extraction leaves the state unchanged. -/
lemma applyMotionX_fail (s : PState) (t : Tensor)
    (f : Tensor → Except Unit (List Tensor)) (u : Unit)
    (hf : s.motion_extractor = some f) (he : f t = .error u) :
    applyMotionX s t = s := by
  unfold applyMotionX
  rw [hf]
  simp only []
  rw [he]

/-- C4 (amended).  When feature extraction raises, `set_reference` does
not raise and still retains the new raw reference image, but the derived
feature slots keep whatever values they held before the call (possibly
features of a previously set reference); they are overwritten only by a
successful extraction. -/
theorem set_reference_failure_retains (ext : Ext) (s : PState) (img : Image) :
    (set_reference ext s img).reference_image = some img ∧
    (∀ (f : Tensor → Except Unit Tensor) (u : Unit),
      s.appearance_extractor = some f →
      f (preprocess ext img) = .error u →
      (set_reference ext s img).generator_input = s.generator_input) ∧
    (∀ (f : Tensor → Except Unit (List Tensor)) (u : Unit),
      s.motion_extractor = some f →
      f (preprocess ext img) = .error u →
      (set_reference ext s img).source_kp = s.source_kp ∧
      (set_reference ext s img).source_rotation = s.source_rotation) := by
  refine ⟨set_reference_ref ext s img, ?_, ?_⟩
  · intro f u hf he
    have hf1 : ({ s with reference_image := some img } :
        PState).appearance_extractor = some f := hf
    simp only [set_reference]
    rw [applyMotionX_gen, applyAppearance_fail _ _ f u hf1 he]
  · intro f u hf he
    have hext : (applyAppearance ({ s with reference_image := some img } :
        PState) (preprocess ext img)).motion_extractor = some f :=
      (applyAppearance_fields _ _).2.2.trans hf
    simp only [set_reference]
    rw [applyMotionX_fail _ _ f u hext he]
    exact ⟨(applyAppearance_fields _ _).1, (applyAppearance_fields _ _).2.1⟩

/-- The all-zero feature tensor, standing for features extracted from an
earlier reference. -/
def tStale : Tensor := fun _ _ _ => 0

/-- An appearance extractor that raises on every input. -/
def failApp : Tensor → Except Unit Tensor := fun _ => .error ()

/-- A pipeline state that already holds a reference and cached appearance
features, and whose appearance extractor raises. -/
def sStale : PState :=
  ⟨true, some imgA, some failApp, none, none, none, none, none, none,
    some tStale, "cpu"⟩

/-- C4 counterexample to the claim as stated: with a failing appearance
extractor, `set_reference` keeps the feature cache of the previously set
reference instead of leaving it empty. -/
theorem set_reference_failure_keeps_stale :
    sStale.appearance_extractor = some failApp ∧
    failApp (preprocess extId (probeImg 0)) = .error () ∧
    (set_reference extId sStale (probeImg 0)).generator_input =
      some tStale ∧
    (set_reference extId sStale (probeImg 0)).generator_input ≠ none := by
  refine ⟨rfl, rfl, rfl, ?_⟩
  rw [show (set_reference extId sStale (probeImg 0)).generator_input =
    some tStale from rfl]
  exact Option.some_ne_none _

/-- Witness for C4's amended statement: the failing extraction retains
the new raw image and leaves the cached slot exactly as it was. -/
theorem set_reference_failure_retains_witness :
    sStale.appearance_extractor = some failApp ∧
    failApp (preprocess extId (probeImg 0)) = .error () ∧
    (set_reference extId sStale (probeImg 0)).reference_image =
      some (probeImg 0) ∧
    (set_reference extId sStale (probeImg 0)).generator_input =
      sStale.generator_input :=
  ⟨rfl, rfl, (set_reference_failure_retains extId sStale (probeImg 0)).1,
   (set_reference_failure_retains extId sStale (probeImg 0)).2.1
     failApp () rfl rfl⟩

/-- C7.  `inference` is stateless and idempotent: a sequence of calls
leaves the pipeline state unchanged and each output is the pure function
of the initial state and that call's parameters alone, so calls with equal
motion parameters return equal frames regardless of the calls in
between. -/
theorem inference_stateless :
    (∀ (ext : Ext) (s : PState) (js : List Json),
      runCalls ext s js = (s, js.map (pipelineInference ext s))) ∧
    (∀ (ext : Ext) (s : PState) (js : List Json) (i j : ℕ),
      js[i]? = js[j]? →
      (runCalls ext s js).2[i]? = (runCalls ext s js).2[j]?) := by
  have key : ∀ (ext : Ext) (s : PState) (js : List Json),
      runCalls ext s js = (s, js.map (pipelineInference ext s)) := by
    intro ext s js
    induction js with
    | nil => rfl
    | cons j js ih => simp [runCalls, inferenceS, ih]
  refine ⟨key, ?_⟩
  intro ext s js i j h
  rw [key]
  simp only [List.getElem?_map]
  rw [h]

/-- Witness for C7: two equal motion messages in one sequence get equal
outputs. -/
theorem inference_stateless_witness :
    ([zeroMotionJson, zeroMotionJson] : List Json)[0]? =
      ([zeroMotionJson, zeroMotionJson] : List Json)[1]? ∧
    (runCalls extId pReady [zeroMotionJson, zeroMotionJson]).2[0]? =
      (runCalls extId pReady [zeroMotionJson, zeroMotionJson]).2[1]? :=
  ⟨rfl, inference_stateless.2 extId pReady [zeroMotionJson, zeroMotionJson]
    0 1 rfl⟩

/-- C8.  With no reference set, `inference` returns the
reference-not-set error and changes no pipeline state; the gateway turns
the condition into a status reply when the global reference is missing,
and into an error reply carrying the exception's message when the global
reference is present but the pipeline's is not. -/
theorem missing_reference_handling :
    (∀ (ext : Ext) (s : PState) (j : Json),
      s.reference_image = none →
      inferenceS ext s j = (s, .error .refNotSet)) ∧
    (∀ (ext : Ext) (g : GState) (paramsJ : Json),
      g.reference_image = none →
      processMessage ext g (.ok (.obj [("type", .str "motion"),
        ("params", paramsJ)])) =
        .reply (.status "Pipeline not ready or reference not loaded")) ∧
    (∀ (ext : Ext) (g : GState) (p : PState) (i : Image) (paramsJ : Json),
      g.pipeline = some p → p.is_ready = true →
      g.reference_image = some i → p.reference_image = none →
      processMessage ext g (.ok (.obj [("type", .str "motion"),
        ("params", paramsJ)])) =
        .reply (.error "Reference image not set")) := by
  refine ⟨?_, ?_, ?_⟩
  · intro ext s j h
    simp [inferenceS, pipelineInference, inferRef, h]
  · intro ext g paramsJ h
    show motionOutcome ext g paramsJ = _
    unfold motionOutcome
    cases hp : g.pipeline with
    | none => rfl
    | some p =>
      cases hready : p.is_ready with
      | false => simp [hready]
      | true => simp [hready, h]
  · intro ext g p i paramsJ hg hready hgr hpr
    show motionOutcome ext g paramsJ = _
    unfold motionOutcome
    simp [hg, hready, hgr, pipelineInference, inferRef, hpr, errMessage]

/-- Witness for C8 at a concrete dummy-mode pipeline. -/
theorem missing_reference_handling_witness :
    pReady.reference_image = none ∧
    inferenceS extId pReady zeroMotionJson = (pReady, .error .refNotSet) ∧
    processMessage extId ⟨some pReady, none⟩
      (.ok (.obj [("type", .str "motion"), ("params", .obj [])])) =
      .reply (.status "Pipeline not ready or reference not loaded") ∧
    processMessage extId ⟨some pReady, some imgA⟩
      (.ok (.obj [("type", .str "motion"), ("params", .obj [])])) =
      .reply (.error "Reference image not set") :=
  ⟨rfl, missing_reference_handling.1 extId pReady zeroMotionJson rfl,
   missing_reference_handling.2.1 extId ⟨some pReady, none⟩ (.obj []) rfl,
   missing_reference_handling.2.2 extId ⟨some pReady, some imgA⟩ pReady imgA
     (.obj []) rfl rfl rfl rfl⟩

/-- C10.  `inference` never uses the smile parameter: changing only the
smile field of the motion record (or of the params object) leaves the
result unchanged. -/
theorem smile_not_used :
    (∀ (ext : Ext) (ref : Image) (m : RawMotion) (v : Json),
      degradedRender ext ref { m with smile := v } =
        degradedRender ext ref m) ∧
    (∀ (ext : Ext) (s : PState) (fs1 fs2 : List (String × Json)),
      (readParams fs1).headRotation = (readParams fs2).headRotation →
      (readParams fs1).mouthOpen = (readParams fs2).mouthOpen →
      (readParams fs1).eyeBlinkLeft = (readParams fs2).eyeBlinkLeft →
      (readParams fs1).eyeBlinkRight = (readParams fs2).eyeBlinkRight →
      pipelineInference ext s (.obj fs1) = pipelineInference ext s (.obj fs2)) := by
  have hcongr : ∀ (ext : Ext) (ref : Image) (m1 m2 : RawMotion),
      m1.headRotation = m2.headRotation → m1.mouthOpen = m2.mouthOpen →
      m1.eyeBlinkLeft = m2.eyeBlinkLeft →
      m1.eyeBlinkRight = m2.eyeBlinkRight →
      degradedRender ext ref m1 = degradedRender ext ref m2 := by
    intro ext ref m1 m2 h1 h2 h3 h4
    cases m1
    cases m2
    simp only at h1 h2 h3 h4
    subst h1
    subst h2
    subst h3
    subst h4
    rfl
  refine ⟨fun ext ref m v => hcongr ext ref _ _ rfl rfl rfl rfl, ?_⟩
  intro ext s fs1 fs2 h1 h2 h3 h4
  unfold pipelineInference inferRef
  cases hr : s.reference_image with
  | none => rfl
  | some ref => exact hcongr ext ref _ _ h1 h2 h3 h4

/-- Witness for C10: a params object carrying only a smile value renders
exactly like the empty params object, against a loaded reference. -/
theorem smile_not_used_witness :
    (readParams [("smile", Json.num 1)]).headRotation =
      (readParams []).headRotation ∧
    (readParams [("smile", Json.num 1)]).mouthOpen =
      (readParams []).mouthOpen ∧
    (readParams [("smile", Json.num 1)]).eyeBlinkLeft =
      (readParams []).eyeBlinkLeft ∧
    (readParams [("smile", Json.num 1)]).eyeBlinkRight =
      (readParams []).eyeBlinkRight ∧
    pipelineInference extId sStale (.obj [("smile", .num 1)]) =
      pipelineInference extId sStale (.obj []) :=
  ⟨rfl, rfl, rfl, rfl,
   smile_not_used.2 extId sStale [("smile", Json.num 1)] [] rfl rfl rfl rfl⟩

/-- Publishing the global reference does not touch the pipeline slot. -/
lemma pipeRef_stepServerRef (r : Image) (g : GState) :
    pipeRef (stepServerRef r g) = pipeRef g := rfl

/-- The appearance block does not move the pipeline reference. -/
lemma pipeRef_stepAppearance (ext : Ext) (r : Image) (g : GState) :
    pipeRef (stepAppearance ext r g) = pipeRef g := by
  cases hp : g.pipeline with
  | none => simp [pipeRef, stepAppearance, hp]
  | some p =>
    simp only [pipeRef, stepAppearance, hp, Option.map_some']
    split
    · exact applyAppearance_ref p _
    · rfl

/-- The motion block does not move the pipeline reference. -/
lemma pipeRef_stepMotion (ext : Ext) (r : Image) (g : GState) :
    pipeRef (stepMotion ext r g) = pipeRef g := by
  cases hp : g.pipeline with
  | none => simp [pipeRef, stepMotion, hp]
  | some p =>
    simp only [pipeRef, stepMotion, hp, Option.map_some']
    split
    · exact applyMotionX_ref p _
    · rfl

/-- Storing the pipeline reference either leaves it (pipeline absent or
not ready) or sets it to the new image, never anything else. -/
lemma pipeRef_stepPipeRef (r : Image) (g : GState) :
    pipeRef (stepPipeRef r g) = pipeRef g ∨
    pipeRef (stepPipeRef r g) = some r := by
  cases hp : g.pipeline with
  | none => exact Or.inl (by simp [pipeRef, stepPipeRef, hp])
  | some p =>
    cases hready : p.is_ready with
    | false =>
        exact Or.inl (by simp [pipeRef, stepPipeRef, hp, hready])
    | true =>
        exact Or.inr (by simp [pipeRef, stepPipeRef, hp, hready])

/-- At every instant of the upload, the pipeline reference is either
still the original one or already the new resized image. -/
lemma pipeRef_wStateAt (ext : Ext) (img : Image) (g0 : GState) (t : ℕ) :
    pipeRef (wStateAt ext img g0 t) = pipeRef g0 ∨
    pipeRef (wStateAt ext img g0 t) = some (ext.pilResize img) := by
  match t with
  | 0 => exact Or.inl rfl
  | 1 => exact Or.inl rfl
  | 2 =>
    have h2 : wStateAt ext img g0 2 =
        stepPipeRef (ext.pilResize img)
          (stepServerRef (ext.pilResize img) g0) := rfl
    rw [h2]
    rcases pipeRef_stepPipeRef (ext.pilResize img)
      (stepServerRef (ext.pilResize img) g0) with h | h
    · exact Or.inl h
    · exact Or.inr h
  | 3 =>
    have h3 : wStateAt ext img g0 3 =
        stepAppearance ext (ext.pilResize img)
          (stepPipeRef (ext.pilResize img)
            (stepServerRef (ext.pilResize img) g0)) := rfl
    rw [h3, pipeRef_stepAppearance]
    rcases pipeRef_stepPipeRef (ext.pilResize img)
      (stepServerRef (ext.pilResize img) g0) with h | h
    · exact Or.inl h
    · exact Or.inr h
  | (n + 4) =>
    have h4 : wStateAt ext img g0 (n + 4) =
        stepMotion ext (ext.pilResize img)
          (stepAppearance ext (ext.pilResize img)
            (stepPipeRef (ext.pilResize img)
              (stepServerRef (ext.pilResize img) g0))) := by
      unfold wStateAt uploadSteps
      rw [List.take_of_length_le (by simp)]
      rfl
    rw [h4, pipeRef_stepMotion, pipeRef_stepAppearance]
    rcases pipeRef_stepPipeRef (ext.pilResize img)
      (stepServerRef (ext.pilResize img) g0) with h | h
    · exact Or.inl h
    · exact Or.inr h

/-- A frame reply pins down the `inference` result it came from. -/
lemma replyOf_frame (e : Except PErr Image) (f : Image)
    (h : replyOf e = .reply (.frame f)) : e = .ok f := by
  cases e with
  | ok g =>
      simp only [replyOf] at h
      injection h with h1
      injection h1 with h2
      rw [h2]
  | error e => simp [replyOf] at h

/-- A frame produced by the interleaved reader is the render of the
pipeline reference present at its read instant. -/
lemma readerOutcome_frame (ext : Ext) (g0 : GState) (img : Image)
    (params : Json) (t1 t2 : ℕ) (f : Image)
    (h : readerOutcome ext g0 img params t1 t2 = .reply (.frame f)) :
    inferRef ext (pipeRef (wStateAt ext img g0 t2)) params = .ok f := by
  unfold readerOutcome at h
  simp only [] at h
  split at h
  · exact absurd h (by simp)
  · split at h
    · split at h
      · exact absurd h (by simp)
      · exact replyOf_frame _ _ h
    · exact absurd h (by simp)

/-- C9.  Whatever the interleaving of one reference upload with a
concurrent `inference` call, a frame the reader produces is rendered
entirely from the old reference or entirely from the new one: the
degraded path reads the reference exactly once and never reads the
feature cache, so no torn mix is observable. -/
theorem no_torn_reference_frames (ext : Ext) (g0 : GState) (img : Image)
    (params : Json) (t1 t2 : ℕ) (f : Image)
    (h : readerOutcome ext g0 img params t1 t2 = .reply (.frame f)) :
    inferRef ext (pipeRef g0) params = .ok f ∨
    inferRef ext (some (ext.pilResize img)) params = .ok f := by
  have hr := readerOutcome_frame ext g0 img params t1 t2 f h
  rcases pipeRef_wStateAt ext img g0 t2 with h2 | h2
  · exact Or.inl (by rwa [h2] at hr)
  · exact Or.inr (by rwa [h2] at hr)

/-- Witness for C9: a reader whose gate read happens before the upload
and whose reference read happens after all four writer steps produces the
frame rendered from the new reference. -/
theorem no_torn_reference_frames_witness :
    readerOutcome extId ⟨some pReady, some imgA⟩ imgA zeroMotionJson 0 4 =
      .reply (.frame (blurStage extId 0 0 (brightStage 0
        (warpAffine .replicate (headMatrix imgA.h imgA.w 0 0) imgA)))) ∧
    (inferRef extId (pipeRef ⟨some pReady, some imgA⟩) zeroMotionJson =
      .ok (blurStage extId 0 0 (brightStage 0
        (warpAffine .replicate (headMatrix imgA.h imgA.w 0 0) imgA))) ∨
    inferRef extId (some (extId.pilResize imgA)) zeroMotionJson =
      .ok (blurStage extId 0 0 (brightStage 0
        (warpAffine .replicate (headMatrix imgA.h imgA.w 0 0) imgA)))) :=
  ⟨rfl, no_torn_reference_frames extId ⟨some pReady, some imgA⟩ imgA
    zeroMotionJson 0 4 _ rfl⟩

end LivePortrait
